import Mathlib

/-!
Verification of the Mathesar modal component suite against its source:

* `IndependentModal.svelte` — the modal controller: open/closed state,
  dismissal policy (`closeOnButton`/`closeOnEsc`/`closeOnOverlay`),
  global Escape handling, overlay-click handling, out-of-flow mounting
  via `use:portal`, and deferred `open`/`close` lifecycle dispatch
  (`dispatchOpenOrClose`, which awaits `tick()` before dispatching).
* `Window.svelte` — stateless window chrome: conditional title bar,
  optional close button, body and footer regions.
* `connections.ts` — the resource client: `list()` and
  `update(id, properties)` over the remote connection collection.

The Svelte components are shallowly embedded: props become structure
fields, reactive derivations become functions of the props, the template
becomes a render function producing an explicit node tree, and the
invalidation and flush behaviour of the runtime becomes an explicit component
state with a pending-notification queue and a `flushTick` step.
-/

/-- The `ModalCloseAction` union type from `modalTypes`:
the three dismissal triggers. -/
inductive ModalCloseAction where
  | button
  | esc
  | overlay
deriving DecidableEq, Repr

/-- The `ModalWidth` union type: the three size options. -/
inductive ModalWidth where
  | regular
  | medium
  | large
deriving DecidableEq, Repr

/-- The exported props of `IndependentModal.svelte`, with the default
values given in the source. -/
structure ModalProps where
  modalId : Option String := none
  isOpen : Bool := false
  title : Option String := none
  size : ModalWidth := ModalWidth.regular
  allowClose : Bool := true
  hasOverlay : Bool := true
  closeOn : List ModalCloseAction := [ModalCloseAction.button]
  canScrollBody : Bool := true
deriving DecidableEq, Repr

/-- Derived permission from the reactive statement
`closeOnButton = allowClose && closeOn.includes(button)`. -/
def closeOnButton (p : ModalProps) : Bool :=
  p.allowClose && p.closeOn.contains ModalCloseAction.button

/-- Derived permission from the reactive statement
`closeOnEsc = allowClose && closeOn.includes(esc)`. -/
def closeOnEsc (p : ModalProps) : Bool :=
  p.allowClose && p.closeOn.contains ModalCloseAction.esc

/-- Derived permission from the reactive statement
`closeOnOverlay = allowClose && closeOn.includes(overlay)`. -/
def closeOnOverlay (p : ModalProps) : Bool :=
  p.allowClose && p.closeOn.contains ModalCloseAction.overlay

/-- The close function of the controller: it sets `isOpen = false`,
unconditionally. -/
def close (p : ModalProps) : ModalProps :=
  { p with isOpen := false }

/-- The keydown handler: on Escape, while open and while the esc
trigger is permitted, it calls `close`; otherwise it does nothing. It
is attached via `svelte:window on:keydown`, i.e. globally, not scoped
to the modal subtree. -/
def handleKeydown (key : String) (p : ModalProps) : ModalProps :=
  if key == "Escape" && p.isOpen && closeOnEsc p then close p else p

/-- The overlay click handler: it closes only when the overlay trigger
is permitted. -/
def handleOverlayClick (p : ModalProps) : ModalProps :=
  if closeOnOverlay p then close p else p

/-- A rendered view node: an element with tag, class list, attribute
list and children, or a text node. -/
inductive Node where
  | elem (tag : String) (classes : List String)
      (attrs : List (String × String)) (children : List Node)
  | text (s : String)

mutual

/-- Whether class `c` appears on `n` or anywhere in its subtree. -/
def containsClass (c : String) : Node → Bool
  | Node.text _ => false
  | Node.elem _ cs _ children => cs.contains c || containsClassList c children

/-- Whether class `c` appears anywhere in a forest of nodes. -/
def containsClassList (c : String) : List Node → Bool
  | [] => false
  | n :: ns => containsClass c n || containsClassList c ns

end

/-- JavaScript truthiness of the `title: string | undefined` prop:
truthy exactly when present and non-empty. -/
def titleTruthy (title : Option String) : Bool :=
  match title with
  | none => false
  | some s => !(s == "")

/-- The close affordance of `Window.svelte`: a plain `Button` carrying
class `close-button`, wrapping the close `Icon`. -/
def closeButtonNode : Node :=
  Node.elem "Button" ["close-button"] []
    [Node.elem "Icon" ["fa-times"] [] []]

/-- Class list of the outer window `div`: `class="window"` with
conditional `can-scroll-body` and `has-body-padding`. -/
def windowClasses (canScrollBody hasBodyPadding : Bool) : List String :=
  ["window"]
    ++ (if canScrollBody then ["can-scroll-body"] else [])
    ++ (if hasBodyPadding then ["has-body-padding"] else [])

/-- The template of `Window.svelte`. Parameters: `slotsTitle` mirrors
`$$slots.title` (whether the parent supplied a `slot="title"` fragment),
`titleContent`/`body`/`footer` are the slot contents, and
`title`/`hasCloseButton`/`canScrollBody`/`hasBodyPadding` are the props.
The title bar exists iff `$$slots.title || title || hasCloseButton`. -/
def windowRender (slotsTitle : Bool) (title : Option String)
    (hasCloseButton canScrollBody hasBodyPadding : Bool)
    (titleContent body footer : List Node) : Node :=
  Node.elem "div" (windowClasses canScrollBody hasBodyPadding) []
    ((if slotsTitle || titleTruthy title || hasCloseButton then
        [Node.elem "div" ["title-bar"] []
          ([Node.elem "div" ["title"] []
              (titleContent ++ [Node.text (title.getD "")])]
            ++ (if hasCloseButton then [closeButtonNode] else []))]
      else [])
      ++ [Node.elem "div" ["body"] [] body,
          Node.elem "div" ["footer"] [] footer])

/-- The slot contents supplied by the caller of `IndependentModal`. -/
structure ModalSlots where
  titleSlot : List Node := []
  body : List Node := []
  footer : List Node := []

/-- Class list of the window positioner: conditional width classes from
the conditional class directives comparing `size` against each of the
three width names. -/
def positionerClasses (size : ModalWidth) : List String :=
  ["window-positioner"]
    ++ (if size == ModalWidth.regular then ["width-regular"] else [])
    ++ (if size == ModalWidth.medium then ["width-medium"] else [])
    ++ (if size == ModalWidth.large then ["width-large"] else [])

/-- The `data-modal-id={modalId}` attribute, omitted when undefined. -/
def modalIdAttrs (modalId : Option String) : List (String × String) :=
  match modalId with
  | none => []
  | some v => [("data-modal-id", v)]

/-- The template of `IndependentModal.svelte`: when `isOpen` is false
nothing at all is rendered (the whole template is inside
`{#if isOpen}`); when true, a `modal` div (re-parented to the document
anchor by `use:portal`) containing the optional `overlay` div and the
`window-positioner` wrapping `Window`. The modal always supplies a
`slot="title"` fragment to `Window` — a div holding the forwarded
title slot followed by the title text defaulted to the empty string —
passes `hasCloseButton={closeOnButton}`, and does not pass the `title`
prop of `Window` itself. -/
def modalRender (p : ModalProps) (s : ModalSlots) : List Node :=
  if p.isOpen then
    [Node.elem "div" ["modal"] (modalIdAttrs p.modalId)
      ((if p.hasOverlay then [Node.elem "div" ["overlay"] [] []] else [])
        ++ [Node.elem "div" (positionerClasses p.size) []
             [windowRender true none (closeOnButton p) p.canScrollBody true
               [Node.elem "div" [] []
                  (s.titleSlot ++ [Node.text (p.title.getD "")])]
               s.body s.footer]])]
  else []

example : containsClassList "overlay"
    (modalRender { isOpen := true } {}) = true := by decide

example : modalRender { isOpen := false } {} = [] := rfl

/-- The event name passed to `dispatch` by `dispatchOpenOrClose`: the
string open when the observed value is true, else the string close. -/
def eventName (b : Bool) : String :=
  if b then "open" else "close"

/-- A mounted `IndependentModal` instance as the Svelte runtime holds
it: current props, the slot fragments, the committed view, the queue of
deferred `dispatchOpenOrClose` calls awaiting `tick()` (each entry is
the `_isOpen` argument captured when the reactive statement ran), and
the log of dispatched lifecycle events. -/
structure ModalComponent where
  props : ModalProps
  slots : ModalSlots
  view : List Node
  pending : List Bool
  events : List String

/-- Component initialisation: the template renders from the initial
props, and the reactive statement `$: void dispatchOpenOrClose(isOpen)`
runs once with the initial `isOpen`, scheduling one deferred dispatch
even though no transition has occurred. -/
def initComponent (p : ModalProps) (s : ModalSlots) : ModalComponent :=
  { props := p
    slots := s
    view := modalRender p s
    pending := [p.isOpen]
    events := [] }

/-- Assignment to `isOpen` (from `close()` or from the embedding caller
setting the prop). Invalidation in Svelte uses `safe_not_equal`: writing
the value the primitive already holds marks nothing dirty, so neither
the view nor the reactive statement re-runs. On an actual change the
view is re-rendered and `dispatchOpenOrClose` runs once, capturing the
new value and joining the queue awaiting `tick()`. -/
def setIsOpen (b : Bool) (c : ModalComponent) : ModalComponent :=
  if b == c.props.isOpen then c
  else
    { c with
        props := { c.props with isOpen := b }
        view := modalRender { c.props with isOpen := b } c.slots
        pending := c.pending ++ [b] }

/-- Run one of the component's own handlers, all of which only ever
write `isOpen`, and route the write through Svelte invalidation. -/
def applyHandler (f : ModalProps → ModalProps) (c : ModalComponent) :
    ModalComponent :=
  setIsOpen (f c.props).isOpen c

/-- Resolution of `tick()`: every queued `dispatchOpenOrClose` call
resumes, after the view update has been committed, and dispatches the
event for the value it captured at scheduling time, in scheduling
order. -/
def flushTick (c : ModalComponent) : ModalComponent :=
  { c with
      events := c.events ++ c.pending.map eventName
      pending := [] }

/-- The external stimuli the component reacts to: a global window
keydown, a click on the overlay, an activation of the window chrome's
close button (wired to `close` via `on:close={close}`), the embedding
caller setting the `isOpen` prop, and the resolution of `tick()`. -/
inductive ModalInput where
  | keydown (key : String)
  | overlayClick
  | closeButtonClick
  | setOpen (b : Bool)
  | tick

/-- Dispatch one stimulus to the component. -/
def processInput : ModalInput → ModalComponent → ModalComponent
  | ModalInput.keydown k, c => applyHandler (handleKeydown k) c
  | ModalInput.overlayClick, c => applyHandler handleOverlayClick c
  | ModalInput.closeButtonClick, c => applyHandler close c
  | ModalInput.setOpen b, c => setIsOpen b c
  | ModalInput.tick, c => flushTick c

/-- A component mounted with props `p` and slots `s` after a sequence
of stimuli. -/
def run (p : ModalProps) (s : ModalSlots) (inputs : List ModalInput) :
    ModalComponent :=
  inputs.foldl (fun c i => processInput i c) (initComponent p s)

/-- Processing a stimulus never changes the slot fragments. -/
theorem processInput_slots (i : ModalInput) (c : ModalComponent) :
    (processInput i c).slots = c.slots := by
  cases i <;>
    simp only [processInput, applyHandler, setIsOpen, flushTick] <;>
    split <;> rfl

/-- Processing a stimulus keeps the committed view in sync with the props:
the view always equals the render of the current props. -/
theorem processInput_view (i : ModalInput) (c : ModalComponent)
    (h : c.view = modalRender c.props c.slots) :
    (processInput i c).view
      = modalRender (processInput i c).props (processInput i c).slots := by
  cases i <;>
    simp only [processInput, applyHandler, setIsOpen, flushTick] <;>
    first
      | (split <;> simp_all)
      | simp_all

/-- Every reachable component state has its view committed to the
render of its current props: lifecycle events, which are emitted only
at `tick`, are therefore observed only after the view reflects the
state that scheduled them. -/
theorem run_view_committed (p : ModalProps) (s : ModalSlots)
    (inputs : List ModalInput) :
    (run p s inputs).view
      = modalRender (run p s inputs).props (run p s inputs).slots := by
  suffices h : ∀ c : ModalComponent,
      c.view = modalRender c.props c.slots →
      (inputs.foldl (fun c i => processInput i c) c).view
        = modalRender (inputs.foldl (fun c i => processInput i c) c).props
            (inputs.foldl (fun c i => processInput i c) c).slots by
    exact h (initComponent p s) rfl
  induction inputs with
  | nil => intro c hc; exact hc
  | cons i rest ih =>
      intro c hc
      exact ih (processInput i c) (processInput_view i c hc)

/-- Class search distributes over forest concatenation. -/
theorem containsClassList_append (c : String) (xs ys : List Node) :
    containsClassList c (xs ++ ys)
      = (containsClassList c xs || containsClassList c ys) := by
  induction xs with
  | nil => simp [containsClassList]
  | cons n ns ih =>
      simp [containsClassList, ih, Bool.or_assoc]

/-- Unfolding lemma for class search on an element node. -/
theorem containsClass_elem (c tag : String) (cs : List String)
    (attrs : List (String × String)) (children : List Node) :
    containsClass c (Node.elem tag cs attrs children)
      = (cs.contains c || containsClassList c children) := by
  rw [containsClass]

/-- Unfolding lemma for class search on a text node. -/
theorem containsClass_text (c str : String) :
    containsClass c (Node.text str) = false := by
  rw [containsClass]

/-- Unfolding lemma for class search on a non-empty forest. -/
theorem containsClassList_cons (c : String) (n : Node) (ns : List Node) :
    containsClassList c (n :: ns)
      = (containsClass c n || containsClassList c ns) := by
  rw [containsClassList]

/-- Unfolding lemma for class search on the empty forest. -/
theorem containsClassList_nil (c : String) :
    containsClassList c ([] : List Node) = false := by
  rw [containsClassList]

/-- The window class list never carries the close-button class. -/
theorem windowClasses_no_closeButton (b1 b2 : Bool) :
    "close-button" ∉ windowClasses b1 b2 := by
  cases b1 <;> cases b2 <;> decide

/-- The positioner class list never carries the close-button class. -/
theorem positionerClasses_no_closeButton (sz : ModalWidth) :
    "close-button" ∉ positionerClasses sz := by
  cases sz <;> decide

/-- A window rendered with `hasCloseButton = false` contains no node of
class close-button, provided none of the supplied slot fragments does. -/
theorem windowRender_no_closeButton (slotsTitle : Bool)
    (title : Option String) (canScrollBody hasBodyPadding : Bool)
    (titleContent body footer : List Node)
    (h1 : containsClassList "close-button" titleContent = false)
    (h2 : containsClassList "close-button" body = false)
    (h3 : containsClassList "close-button" footer = false) :
    containsClass "close-button"
      (windowRender slotsTitle title false canScrollBody hasBodyPadding
        titleContent body footer) = false := by
  simp only [windowRender]
  split
  · simp [containsClass_elem, containsClass_text, containsClassList_cons,
      containsClassList_nil, containsClassList_append,
      windowClasses_no_closeButton, h1, h2, h3]
  · simp [containsClass_elem, containsClass_text, containsClassList_cons,
      containsClassList_nil, containsClassList_append,
      windowClasses_no_closeButton, h2, h3]

/-- The modal template contains no node of class close-button whenever
the derived button permission is off, provided none of the caller slot
fragments carries that class. -/
theorem modalRender_no_closeButton (p : ModalProps) (s : ModalSlots)
    (hb : closeOnButton p = false)
    (h1 : containsClassList "close-button" s.titleSlot = false)
    (h2 : containsClassList "close-button" s.body = false)
    (h3 : containsClassList "close-button" s.footer = false) :
    containsClassList "close-button" (modalRender p s) = false := by
  have ht : containsClassList "close-button"
      [Node.elem "div" [] []
        (s.titleSlot ++ [Node.text (p.title.getD "")])] = false := by
    simp [containsClassList_cons, containsClassList_nil, containsClass_elem,
      containsClass_text, containsClassList_append, h1]
  have hw := windowRender_no_closeButton true none p.canScrollBody true
    [Node.elem "div" [] [] (s.titleSlot ++ [Node.text (p.title.getD "")])]
    s.body s.footer ht h2 h3
  simp only [modalRender]
  split
  · cases hov : p.hasOverlay <;>
      simp [containsClassList_cons, containsClassList_nil,
        containsClass_elem, containsClass_text, containsClassList_append,
        positionerClasses_no_closeButton, modalIdAttrs, hb, hw]
  · simp [containsClassList_nil]

/-- Claim C1: when `allowClose` is false, every derived close
permission (`closeOnButton`/`closeOnEsc`/`closeOnOverlay`) is false,
the Escape handler and the overlay handler leave the props untouched
for every key, and — since `hasCloseButton` is bound to
`closeOnButton` — the rendered tree holds no close button (given that
the caller slot fragments carry none), so no dismissal trigger in
{button, esc, overlay} can transition `isOpen` to false. -/
theorem claim_C1 (p : ModalProps) (s : ModalSlots) (k : String)
    (hac : p.allowClose = false)
    (h1 : containsClassList "close-button" s.titleSlot = false)
    (h2 : containsClassList "close-button" s.body = false)
    (h3 : containsClassList "close-button" s.footer = false) :
    closeOnButton p = false ∧ closeOnEsc p = false ∧
    closeOnOverlay p = false ∧
    handleKeydown k p = p ∧ handleOverlayClick p = p ∧
    containsClassList "close-button" (modalRender p s) = false := by
  have hb : closeOnButton p = false := by simp [closeOnButton, hac]
  have he : closeOnEsc p = false := by simp [closeOnEsc, hac]
  have ho : closeOnOverlay p = false := by simp [closeOnOverlay, hac]
  refine ⟨hb, he, ho, ?_, ?_, modalRender_no_closeButton p s hb h1 h2 h3⟩
  · simp [handleKeydown, he]
  · simp [handleOverlayClick, ho]

def c1props : ModalProps :=
  { isOpen := true, allowClose := false,
    closeOn := [ModalCloseAction.button, ModalCloseAction.esc,
      ModalCloseAction.overlay] }

/-- Witness for claim C1 at a concrete open modal listing all three
triggers in `closeOn` but with `allowClose = false`. -/
theorem claim_C1_witness :
    closeOnButton c1props = false ∧ closeOnEsc c1props = false ∧
    closeOnOverlay c1props = false ∧
    handleKeydown "Escape" c1props = c1props ∧
    handleOverlayClick c1props = c1props ∧
    containsClassList "close-button" (modalRender c1props {}) = false :=
  claim_C1 c1props {} "Escape" (by decide) (by decide) (by decide)
    (by decide)

/-- Claim C3: a dismissal trigger absent from `closeOn` is a no-op even
when `allowClose` is true: for esc, an Escape keydown leaves the whole
component unchanged (same `isOpen`, same pending queue, same event
log); for overlay, an overlay click likewise — in particular a click on
the overlay when overlay is not in `closeOn` leaves `isOpen` true; for
button, the close button is not rendered at all (given that the caller
slot fragments carry none). -/
theorem claim_C3 (c : ModalComponent) (t : ModalCloseAction) (k : String)
    (hnot : c.props.closeOn.contains t = false)
    (h1 : containsClassList "close-button" c.slots.titleSlot = false)
    (h2 : containsClassList "close-button" c.slots.body = false)
    (h3 : containsClassList "close-button" c.slots.footer = false) :
    (t = ModalCloseAction.esc →
        processInput (ModalInput.keydown k) c = c) ∧
    (t = ModalCloseAction.overlay →
        processInput ModalInput.overlayClick c = c) ∧
    (t = ModalCloseAction.button →
        containsClassList "close-button"
          (modalRender c.props c.slots) = false) := by
  refine ⟨?_, ?_, ?_⟩
  · intro ht
    subst ht
    have hmeme : ModalCloseAction.esc ∉ c.props.closeOn := by
      simpa using hnot
    have he : closeOnEsc c.props = false := by
      simp [closeOnEsc, hmeme]
    simp [processInput, applyHandler, handleKeydown, he, setIsOpen]
  · intro ht
    subst ht
    have hmemo : ModalCloseAction.overlay ∉ c.props.closeOn := by
      simpa using hnot
    have ho : closeOnOverlay c.props = false := by
      simp [closeOnOverlay, hmemo]
    simp [processInput, applyHandler, handleOverlayClick, ho, setIsOpen]
  · intro ht
    subst ht
    have hmemb : ModalCloseAction.button ∉ c.props.closeOn := by
      simpa using hnot
    have hb : closeOnButton c.props = false := by
      simp [closeOnButton, hmemb]
    exact modalRender_no_closeButton c.props c.slots hb h1 h2 h3

def c3comp : ModalComponent :=
  initComponent { isOpen := true, closeOn := [ModalCloseAction.button] } {}

/-- Witness for claim C3 at the spec scenario: `closeOn = [button]`,
overlay present, modal open; an overlay click leaves the component
unchanged, so `isOpen` stays true and no notification results. -/
theorem claim_C3_witness :
    processInput ModalInput.overlayClick c3comp = c3comp ∧
    c3comp.props.isOpen = true :=
  ⟨(claim_C3 c3comp ModalCloseAction.overlay "Escape" (by decide)
      (by decide) (by decide) (by decide)).2.1 rfl,
   by decide⟩

/-- Claim C4: whenever `isOpen` is false the render output is the empty
forest — no modal node, no overlay, no window positioner, no chrome,
no body or footer content — and, since the portal attaches exactly the
rendered `modal` node, nothing is mounted at the out-of-flow anchor;
likewise any reachable component state whose `isOpen` is false has an
empty committed view. -/
theorem claim_C4 (p q : ModalProps) (s t : ModalSlots)
    (inputs : List ModalInput)
    (h : p.isOpen = false)
    (h2 : (run q t inputs).props.isOpen = false) :
    modalRender p s = [] ∧ (run q t inputs).view = [] := by
  constructor
  · simp [modalRender, h]
  · rw [run_view_committed]
    simp [modalRender, h2]

/-- Witness for claim C4: a freshly mounted closed modal renders
nothing, and a component opened then closed by its caller has an empty
committed view. -/
theorem claim_C4_witness :
    modalRender { isOpen := false } {} = [] ∧
    (run {} {} [ModalInput.setOpen true, ModalInput.setOpen false]).view
      = [] :=
  claim_C4 { isOpen := false } {} {} {}
    [ModalInput.setOpen true, ModalInput.setOpen false]
    (by decide) (by decide)

/-- Claim C2: an actual transition of `isOpen` schedules exactly one
deferred lifecycle notification carrying the new value; writing the
value already held — a re-render without a transition — changes
nothing and schedules nothing, so notifications are per transition,
not per render; the tick flush turns each queued entry into exactly
one dispatched event (open for true, close for false), in order; and
every reachable component state has its committed view equal to the
render of its current props, so events — dispatched only at tick —
are observed only after the view reflects the state. -/
theorem claim_C2 (c : ModalComponent) (b : Bool) (p : ModalProps)
    (s : ModalSlots) (inputs : List ModalInput) :
    (b ≠ c.props.isOpen →
        (setIsOpen b c).pending = c.pending ++ [b] ∧
        (setIsOpen b c).props.isOpen = b ∧
        (setIsOpen b c).events = c.events) ∧
    (b = c.props.isOpen → setIsOpen b c = c) ∧
    (flushTick c).events = c.events ++ c.pending.map eventName ∧
    (flushTick c).pending = [] ∧
    (flushTick c).view = c.view ∧
    eventName true = "open" ∧ eventName false = "close" ∧
    (run p s inputs).view
      = modalRender (run p s inputs).props (run p s inputs).slots := by
  refine ⟨?_, ?_, rfl, rfl, rfl, rfl, rfl, run_view_committed p s inputs⟩
  · intro h
    simp [setIsOpen, h]
  · intro h
    simp [setIsOpen, h]

/-- Witness for claim C2: opening a freshly mounted closed modal
appends exactly one pending notification, and re-writing the closed
state is the identity. -/
theorem claim_C2_witness :
    (setIsOpen true (initComponent {} {})).pending
        = (initComponent {} {}).pending ++ [true] ∧
    setIsOpen false (initComponent {} {}) = initComponent {} {} :=
  ⟨((claim_C2 (initComponent {} {}) true {} {} []).1 (by decide)).1,
   (claim_C2 (initComponent {} {}) false {} {} []).2.1 (by decide)⟩

def c6props : ModalProps :=
  { isOpen := true,
    closeOn := [ModalCloseAction.button, ModalCloseAction.esc] }

/-- Claim C6: keydowns are processed globally (the handler is attached
to the window, so `processInput` acts on every keydown regardless of
the committed view); the result sets `isOpen` to false exactly when
the key is Escape, the modal is open, and the esc trigger is permitted
(`allowClose` true and esc in `closeOn`), and is the identity
otherwise; in the spec scenario — `closeOn = [button, esc]`,
`allowClose = true`, modal open — a simulated Escape press closes the
modal and exactly one close notification is dispatched at the next
tick. -/
theorem claim_C6 (c : ModalComponent) (k : String) (p : ModalProps) :
    processInput (ModalInput.keydown k) c
      = (if k == "Escape" && c.props.isOpen && closeOnEsc c.props
          then setIsOpen false c else c) ∧
    handleKeydown k p
      = (if k == "Escape" && p.isOpen && closeOnEsc p then close p
          else p) ∧
    (run c6props {}
        [ModalInput.tick, ModalInput.keydown "Escape", ModalInput.tick]
      ).props.isOpen = false ∧
    (run c6props {}
        [ModalInput.tick, ModalInput.keydown "Escape", ModalInput.tick]
      ).events = ["open", "close"] := by
  refine ⟨?_, rfl, by decide, by decide⟩
  by_cases h : (k == "Escape" && c.props.isOpen && closeOnEsc c.props)
      = true
  · simp [processInput, applyHandler, handleKeydown, h, close]
  · simp [processInput, applyHandler, handleKeydown, h, setIsOpen]

/-- Claim C7: requesting close while the modal is already closed has
no observable effect: an Escape keydown, an overlay click and a close
button activation each leave the component exactly as it is (same
`isOpen`, same pending queue, same event log, so no duplicate close
notification ever results), and the render of a closed modal is empty,
so the overlay and button affordances do not even exist. -/
theorem claim_C7 (c : ModalComponent) (k : String) (s : ModalSlots)
    (h : c.props.isOpen = false) :
    processInput (ModalInput.keydown k) c = c ∧
    processInput ModalInput.overlayClick c = c ∧
    processInput ModalInput.closeButtonClick c = c ∧
    modalRender c.props s = [] := by
  refine ⟨?_, ?_, ?_, by simp [modalRender, h]⟩
  · simp [processInput, applyHandler, handleKeydown, h, setIsOpen]
  · by_cases ho : closeOnOverlay c.props = true
    · simp [processInput, applyHandler, handleOverlayClick, ho, close,
        setIsOpen, h]
    · simp [processInput, applyHandler, handleOverlayClick, ho,
        setIsOpen]
  · simp [processInput, applyHandler, close, setIsOpen, h]

def c7comp : ModalComponent :=
  initComponent
    { isOpen := false, allowClose := true,
      closeOn := [ModalCloseAction.button, ModalCloseAction.esc,
        ModalCloseAction.overlay] } {}

/-- Witness for claim C7 at a concrete closed modal permitting every
trigger. -/
theorem claim_C7_witness :
    processInput (ModalInput.keydown "Escape") c7comp = c7comp ∧
    processInput ModalInput.overlayClick c7comp = c7comp ∧
    processInput ModalInput.closeButtonClick c7comp = c7comp ∧
    modalRender c7comp.props {} = [] :=
  claim_C7 c7comp "Escape" {} (by decide)

/-- Claim C8: when `isOpen` changes twice before the deferred
notifications run, one deferred notification is queued per observed
change, each carrying the value observed at its own scheduling time;
the queue is neither cancelled nor coalesced into the final value, so
the flush dispatches one event per change, in scheduling order,
independent of the final state. -/
theorem claim_C8 (c : ModalComponent) (b1 b2 : Bool)
    (h1 : b1 ≠ c.props.isOpen) (h2 : b2 ≠ b1) :
    (setIsOpen b2 (setIsOpen b1 c)).pending
        = c.pending ++ [b1, b2] ∧
    (setIsOpen b2 (setIsOpen b1 c)).props.isOpen = b2 ∧
    (setIsOpen b2 (setIsOpen b1 c)).events = c.events ∧
    (flushTick (setIsOpen b2 (setIsOpen b1 c))).events
      = c.events ++ c.pending.map eventName
          ++ [eventName b1, eventName b2] ∧
    (flushTick (setIsOpen b2 (setIsOpen b1 c))).pending = [] := by
  simp [setIsOpen, h1, h2, flushTick, List.append_assoc]

/-- Witness for claim C8: a closed modal toggled open then closed
before any tick holds two queued notifications, open then close, and
the flush dispatches both in that order. -/
theorem claim_C8_witness :
    (setIsOpen false (setIsOpen true (initComponent {} {}))).pending
        = (initComponent {} {}).pending ++ [true, false] ∧
    (setIsOpen false (setIsOpen true (initComponent {} {}))
      ).props.isOpen = false ∧
    (setIsOpen false (setIsOpen true (initComponent {} {}))).events
        = (initComponent {} {}).events ∧
    (flushTick (setIsOpen false (setIsOpen true (initComponent {} {})))
      ).events
      = (initComponent {} {}).events
          ++ (initComponent {} {}).pending.map eventName
          ++ [eventName true, eventName false] ∧
    (flushTick (setIsOpen false (setIsOpen true (initComponent {} {})))
      ).pending = [] :=
  claim_C8 (initComponent {} {}) true false (by decide) (by decide)

/-- Claim C10: on first render the reactive statement runs once with
the initial `isOpen`, so one deferred notification is queued with no
transition having occurred, and the first tick dispatches it: a modal
mounted closed emits one initial close notification and a modal
mounted open emits one initial open notification. -/
theorem claim_C10 (p : ModalProps) (s : ModalSlots) :
    (initComponent p s).pending = [p.isOpen] ∧
    (initComponent p s).events = [] ∧
    (flushTick (initComponent p s)).events = [eventName p.isOpen] ∧
    eventName false = "close" ∧ eventName true = "open" := by
  refine ⟨rfl, rfl, ?_, rfl, rfl⟩
  simp [flushTick, initComponent]

/-- Whether a node is the title-bar region of the window chrome. -/
def isTitleBar : Node → Bool
  | Node.elem _ cs _ _ => cs.contains "title-bar"
  | Node.text _ => false

/-- Whether the direct children of a rendered window include the
title-bar region. -/
def windowHasTitleBar : Node → Bool
  | Node.elem _ _ _ children => children.any isTitleBar
  | Node.text _ => false

def c5props : ModalProps :=
  { isOpen := true, title := some "", allowClose := true,
    closeOn := [ModalCloseAction.esc] }

/-- Claim C5 counterexample: a modal open with an empty-string title,
no caller title slot content, and `hasCloseButton` false (the button
trigger is not in `closeOn`, so `closeOnButton` is false) nevertheless
renders a title-bar region, because the modal always supplies a
`slot="title"` fragment to the window chrome, making `$$slots.title`
true. The claim predicts the title bar is absent in this wrapped
configuration. -/
theorem claim_C5_counterexample :
    closeOnButton c5props = false ∧
    titleTruthy c5props.title = false ∧
    containsClassList "title-bar" (modalRender c5props {}) = true := by
  decide

/-- Claim C5 amended: the window presentation on its own renders the
title-bar region iff the parent supplied title slot content, the title
prop is truthy (present and non-empty), or the close button is
present; in particular standalone with an empty title, no slot content
and `hasCloseButton` false the title bar is absent. But when the
window is rendered as the wrapped chrome of an open modal, the modal
always supplies a title slot fragment, so the title bar is always
present. -/
theorem claim_C5_amended (slotsTitle : Bool) (title : Option String)
    (hcb csb hbp : Bool) (tc bd ft : List Node)
    (p : ModalProps) (s : ModalSlots)
    (hopen : p.isOpen = true) :
    windowHasTitleBar
        (windowRender slotsTitle title hcb csb hbp tc bd ft)
      = (slotsTitle || titleTruthy title || hcb) ∧
    windowHasTitleBar
        (windowRender false (some "") false csb hbp [] bd ft) = false ∧
    containsClassList "title-bar" (modalRender p s) = true := by
  refine ⟨?_, ?_, ?_⟩
  · simp only [windowRender, windowHasTitleBar]
    split
    · next h =>
        simp [isTitleBar, h]
    · next h =>
        simp only [Bool.or_eq_true, not_or, Bool.not_eq_true] at h
        simp [isTitleBar, h.1.1, h.1.2, h.2]
  · simp [windowRender, windowHasTitleBar, titleTruthy, isTitleBar]
  · simp [modalRender, hopen, windowRender, containsClassList_cons,
      containsClassList_nil, containsClass_elem, containsClass_text,
      containsClassList_append]

/-- Witness for the amended claim C5 at a concrete standalone window
and a concrete open modal. -/
theorem claim_C5_amended_witness :
    windowHasTitleBar
        (windowRender false (some "") false true true [] [] [])
      = (false || titleTruthy (some "") || false) ∧
    windowHasTitleBar
        (windowRender false (some "") false true true [] [] [])
      = false ∧
    containsClassList "title-bar" (modalRender c5props {}) = true :=
  claim_C5_amended false (some "") false true true [] [] []
    c5props {} (by decide)

/-- Modelled from the spec: a resource record of the remote connection
collection. The `Connection` type aliases `Database` from `AppTypes`,
which lies outside the provided sources; the code under scrutiny names
only its `id` and `nickname` fields, so the remaining attributes are
abstracted into one payload field. -/
structure Connection where
  id : Nat
  nickname : String
  payload : String
deriving DecidableEq, Repr

/-- Modelled from the spec: the paginated collection shape returned by
the list operation — a paginated collection of resource records. -/
structure PaginatedResponse (α : Type) where
  count : Nat
  results : List α
deriving DecidableEq, Repr

/-- Modelled from the spec: a partial-update payload over the
updatable connection fields (every field except `id` and `nickname`,
plus `password`); each field is optional, mirroring `Partial` over
`UpdatableConnectionProperties`. -/
structure ConnectionPatch where
  password : Option String := none
  payload : Option String := none
deriving DecidableEq, Repr

/-- An HTTP method used by the request utilities. -/
inductive RequestMethod where
  | get
  | patch
deriving DecidableEq, Repr

/-- A single HTTP request as issued by the request utilities. -/
structure Request where
  method : RequestMethod
  url : String
  body : Option ConnectionPatch
deriving DecidableEq, Repr

/-- Modelled from the spec: a failed operation — a network failure or
a non-2xx response — surfaced to the caller as a rejection,
untransformed. -/
inductive ApiError where
  | network (message : String)
  | httpStatus (code : Nat)
deriving DecidableEq, Repr

/-- Modelled from the spec: `getAPI` from `requestUtils` (outside the
provided sources) issues exactly one GET request to the given URL and
returns its outcome to the caller unchanged — no retry, no caching,
no further requests. The ambient network is an explicit parameter. -/
def getAPI {α : Type} (net : Request → Except ApiError α)
    (url : String) : Except ApiError α :=
  net { method := RequestMethod.get, url := url, body := none }

/-- Modelled from the spec: `patchAPI` from `requestUtils` (outside
the provided sources) issues exactly one PATCH request carrying the
partial payload to the given URL and returns its outcome to the caller
unchanged. -/
def patchAPI {α : Type} (net : Request → Except ApiError α)
    (url : String) (properties : ConnectionPatch) : Except ApiError α :=
  net { method := RequestMethod.patch, url := url,
        body := some properties }

namespace connections

/-- The single request issued by the list operation. -/
def listRequest : Request :=
  { method := RequestMethod.get,
    url := "/api/db/v0/connections/?limit=500", body := none }

/-- The list operation of `connections.ts`: one GET of the connection
collection at its fixed path with the fixed page-size ceiling
`limit=500` in the query string. -/
def list (net : Request → Except ApiError (PaginatedResponse Connection)) :
    Except ApiError (PaginatedResponse Connection) :=
  getAPI net "/api/db/v0/connections/?limit=500"

/-- The single request issued by the update operation for a given id
and partial payload. -/
def updateRequest (connectionId : Nat)
    (properties : ConnectionPatch) : Request :=
  { method := RequestMethod.patch,
    url := "/api/db/v0/connections/" ++ toString connectionId ++ "/",
    body := some properties }

/-- The update operation of `connections.ts`: one PATCH of the
resource path identified by the connection id, carrying the partial
payload, resolving to the updated record. -/
def update (net : Request → Except ApiError Connection)
    (connectionId : Nat) (properties : ConnectionPatch) :
    Except ApiError Connection :=
  patchAPI net ("/api/db/v0/connections/" ++ toString connectionId ++ "/")
    properties

end connections

/-- Claim C9: the list operation is exactly one GET of the fixed
collection path carrying the fixed page-size ceiling `limit=500`
— no retry, no caching, no further pagination — and the update
operation is exactly one PATCH of the resource path identified by the
id, carrying the partial payload; a successful response resolves to
the returned collection or updated record and a network failure or
non-2xx outcome propagates to the caller untransformed. -/
theorem claim_C9
    (netList : Request → Except ApiError (PaginatedResponse Connection))
    (netPatch : Request → Except ApiError Connection)
    (connectionId : Nat) (properties : ConnectionPatch)
    (e : ApiError) (page : PaginatedResponse Connection)
    (conn : Connection) :
    connections.list netList = netList connections.listRequest ∧
    connections.listRequest.method = RequestMethod.get ∧
    connections.listRequest.url = "/api/db/v0/connections/?limit=500" ∧
    (netList connections.listRequest = Except.error e →
        connections.list netList = Except.error e) ∧
    (netList connections.listRequest = Except.ok page →
        connections.list netList = Except.ok page) ∧
    connections.update netPatch connectionId properties
      = netPatch (connections.updateRequest connectionId properties) ∧
    (connections.updateRequest connectionId properties).method
      = RequestMethod.patch ∧
    (connections.updateRequest connectionId properties).url
      = "/api/db/v0/connections/" ++ toString connectionId ++ "/" ∧
    (connections.updateRequest connectionId properties).body
      = some properties ∧
    (netPatch (connections.updateRequest connectionId properties)
        = Except.ok conn →
      connections.update netPatch connectionId properties
        = Except.ok conn) ∧
    (netPatch (connections.updateRequest connectionId properties)
        = Except.error e →
      connections.update netPatch connectionId properties
        = Except.error e) :=
  ⟨rfl, rfl, rfl, fun h => h, fun h => h, rfl, rfl, rfl, rfl,
   fun h => h, fun h => h⟩

def c9page : PaginatedResponse Connection :=
  { count := 1, results := [{ id := 3, nickname := "db", payload := "" }] }

def c9netList (r : Request) :
    Except ApiError (PaginatedResponse Connection) :=
  if r = connections.listRequest then Except.ok c9page
  else Except.error (ApiError.httpStatus 404)

def c9netPatch (_r : Request) : Except ApiError Connection :=
  Except.error (ApiError.network "connection refused")

/-- Witness for claim C9: a network resolving the list request with a
one-record page and rejecting every patch request with a network
failure. -/
theorem claim_C9_witness :
    connections.list c9netList = c9netList connections.listRequest ∧
    connections.listRequest.method = RequestMethod.get ∧
    connections.listRequest.url = "/api/db/v0/connections/?limit=500" ∧
    connections.list c9netList = Except.ok c9page ∧
    connections.update c9netPatch 3 {}
      = Except.error (ApiError.network "connection refused") ∧
    (connections.updateRequest 3 {}).url = "/api/db/v0/connections/3/" :=
  ⟨(claim_C9 c9netList c9netPatch 3 {} (ApiError.httpStatus 404) c9page
      { id := 3, nickname := "db", payload := "" }).1,
   (claim_C9 c9netList c9netPatch 3 {} (ApiError.httpStatus 404) c9page
      { id := 3, nickname := "db", payload := "" }).2.1,
   (claim_C9 c9netList c9netPatch 3 {} (ApiError.httpStatus 404) c9page
      { id := 3, nickname := "db", payload := "" }).2.2.1,
   (claim_C9 c9netList c9netPatch 3 {} (ApiError.httpStatus 404) c9page
      { id := 3, nickname := "db", payload := "" }).2.2.2.2.1
     (by rfl),
   (claim_C9 c9netList c9netPatch 3 {}
      (ApiError.network "connection refused") c9page
      { id := 3, nickname := "db", payload := "" }).2.2.2.2.2.2.2.2.2.2
     (by rfl),
   by decide⟩
